import Mathlib

/-!
A shallow embedding of the provider-routing and error-normalization layer of
the `serviceproxy/gateway_on_streamlit` application: the secret-variable
record (`schemas.py`), the two error-message normalizers (`utils.py`), the
exception messages (`exceptions.py`), and the per-provider call helpers and
the `invoke` entry point together with the UI dispatch step (`run.py`).

The vendor SDK clients are black-box RPC backends: they are modelled as
functions from the configured credentials, model name and prompt to an
outcome that is either a response value or the error type of the provider, exactly
the two shapes the gateway code distinguishes (`GoogleAPIError` caught in
`_google_generate`, `openai.APIError` caught in `_azure_generate`).

Python side effects are made explicit: the process-wide `genai.configure`
call mutates a `World` record that is threaded through, and every backend
request is appended to a call log, so that claims about "zero backend calls"
and about mutation of the shared credential set can be stated.
-/

namespace AetherGateway

/-- `schemas.py`: the `SecretVariables` pydantic model, resolved once from the
environment at process start. -/
structure SecretVariables where
  aether_api_key : String
  aether_proxy_endpoint : String
  azure_api_key : String
  azure_endpoint : String
  azure_openai_api_version : String
  azure_provider_deployment : String
  google_api_key : String
deriving Repr, DecidableEq

/-- Modelled from the spec: the `constants` module (not among the reviewed
source files) provides `LLM_PROVIDERS`; the spec fixes the two known provider
selectors as `google-generativeai` and `azure-openai`, matching the literal
tuple used by the dispatch code in `run.py`. -/
def LLM_PROVIDERS : List String := ["google-generativeai", "azure-openai"]

/-- `exceptions.py`: the message attribute of `LLMProviderNotFoundException`. -/
def llmProviderNotFoundMessage : String :=
  "The LLM provider must be one of the following: " ++ toString LLM_PROVIDERS

/-- `exceptions.py`: the message attribute of `NoResponseException`. -/
def noResponseMessage : String := "The LLM did not return a response."

/-- The nested object under the "error" key of a Gemini JSON error body; the
code reads only its optional "message" field. -/
structure GeminiErrorObj where
  message : Option String
deriving Repr, DecidableEq

/-- The JSON error body `exc.response.json()` of a `GoogleAPIError`; the code
reads only its optional "error" object. -/
structure GeminiErrorBody where
  error : Option GeminiErrorObj
deriving Repr, DecidableEq

/-- A `google.api_core.exceptions.GoogleAPIError` as seen by the gateway:
its JSON error body and its `repr` string. -/
structure GoogleAPIError where
  responseBody : GeminiErrorBody
  reprStr : String
deriving Repr, DecidableEq

/-- The `body` attribute of an `openai.APIError`; the code reads only its
optional "message" field. -/
structure AzureErrorBody where
  message : Option String
deriving Repr, DecidableEq

/-- An `openai.APIError` as seen by the gateway: its error body and its
`repr` string. -/
structure OpenAIAPIError where
  body : AzureErrorBody
  reprStr : String
deriving Repr, DecidableEq

/-- `utils.py`, `handle_gemini_exception`: extract
`exc.response.json().get("error", {}).get("message", repr(exc))`. -/
def handle_gemini_exception (exc : GoogleAPIError) : String :=
  ((exc.responseBody.error.getD ⟨none⟩).message).getD exc.reprStr

/-- `utils.py`, `handle_azure_exception`: extract
`exc.body.get("message", repr(exc))`. -/
def handle_azure_exception (exc : OpenAIAPIError) : String :=
  exc.body.message.getD exc.reprStr

/-- The process-wide configuration installed by `genai.configure`: the API
key, an optional explicit endpoint in `client_options` (absent means the
SDK default direct Gemini endpoint), and an optional transport override. -/
structure GenaiConfig where
  api_key : String
  api_endpoint : Option String
  transport : Option String
deriving Repr, DecidableEq

/-- The constructor arguments of an `AzureOpenAI` client. -/
structure AzureClientConfig where
  api_key : String
  azure_endpoint : String
  api_version : String
deriving Repr, DecidableEq

/-- `run.py`, `_google_generate`: the credentials passed to `genai.configure`
as a function of the routing mode. Enterprise mode installs the Aether key,
the Aether proxy endpoint and the rest transport; direct mode installs only
the Google API key. -/
def googleCredentials (sv : SecretVariables) (is_enterprise_mode : Bool) : GenaiConfig :=
  if is_enterprise_mode then
    { api_key := sv.aether_api_key
      api_endpoint := some sv.aether_proxy_endpoint
      transport := some "rest" }
  else
    { api_key := sv.google_api_key, api_endpoint := none, transport := none }

/-- `run.py`, `_azure_generate`: the credentials passed to the `AzureOpenAI`
constructor as a function of the routing mode. -/
def azureCredentials (sv : SecretVariables) (is_enterprise_mode : Bool) : AzureClientConfig :=
  if is_enterprise_mode then
    { api_key := sv.aether_api_key
      azure_endpoint := sv.aether_proxy_endpoint
      api_version := sv.azure_openai_api_version }
  else
    { api_key := sv.azure_api_key
      azure_endpoint := sv.azure_endpoint
      api_version := sv.azure_openai_api_version }

/-- A Gemini `generate_content` response; the code reads only `.text`. -/
structure GenerateContentResponse where
  text : String
deriving Repr, DecidableEq

/-- An Azure `chat.completions.create` response; the code reads only
`response.choices[0].message.content`, which the SDK types as optional. -/
structure ChatCompletion where
  choice0_message_content : Option String
deriving Repr, DecidableEq

/-- Outcome of a Gemini backend call: a response, or a `GoogleAPIError`
raised by the SDK (the only error class the helper catches). -/
inductive GOutcome where
  | success (resp : GenerateContentResponse)
  | failure (e : GoogleAPIError)
deriving Repr, DecidableEq

/-- Outcome of an Azure backend call: a response, or an `openai.APIError`
raised by the SDK (the only error class the helper catches). -/
inductive AOutcome where
  | success (resp : ChatCompletion)
  | failure (e : OpenAIAPIError)
deriving Repr, DecidableEq

/-- The two black-box vendor SDK backends, as functions from the configured
credentials, model name and prompt to an outcome. -/
structure Backend where
  google : GenaiConfig → String → String → GOutcome
  azure : AzureClientConfig → String → String → AOutcome

/-- The mutable process state the gateway touches: the shared secret
variables and the process-wide `genai` configuration (mutated by
`genai.configure`, absent before the first call). -/
structure World where
  secrets : SecretVariables
  genaiConfig : Option GenaiConfig
deriving Repr, DecidableEq

/-- A record of one request sent to a backend, with the credentials it was
sent under. -/
inductive BackendCall where
  | google (cfg : GenaiConfig) (model_name prompt : String)
  | azure (client : AzureClientConfig) (model_name prompt : String)
deriving Repr, DecidableEq

/-- `run.py`, `_google_generate`: configure the `genai` SDK with the
mode-selected credentials, make one `generate_content` call, return the
response text on success and the normalized error message on a caught
`GoogleAPIError`. Always returns a string. -/
def google_generate (bk : Backend) (w : World)
    (prompt model_name : String) (is_enterprise_mode : Bool) :
    String × World × List BackendCall :=
  let cfg := googleCredentials w.secrets is_enterprise_mode
  let w' : World := { w with genaiConfig := some cfg }
  match bk.google cfg model_name prompt with
  | .success resp => (resp.text, w', [.google cfg model_name prompt])
  | .failure e => (handle_gemini_exception e, w', [.google cfg model_name prompt])

/-- `run.py`, `_azure_generate`: build an `AzureOpenAI` client with the
mode-selected credentials, make one `chat.completions.create` call, return
`response.choices[0].message.content` (which may be absent) on success and
the normalized error message on a caught `openai.APIError`. -/
def azure_generate (bk : Backend) (w : World)
    (prompt model_name : String) (is_enterprise_mode : Bool) :
    Option String × World × List BackendCall :=
  let client := azureCredentials w.secrets is_enterprise_mode
  match bk.azure client model_name prompt with
  | .success resp => (resp.choice0_message_content, w, [.azure client model_name prompt])
  | .failure e => (some (handle_azure_exception e), w, [.azure client model_name prompt])

/-- The error kinds that can be raised inside the `try` block of `invoke`:
the explicit `NoResponseException`, and the `UnboundLocalError` that Python
raises at `if response is None` when neither provider branch assigned
`response` (the selector matched no known provider). -/
inductive InvokeError where
  | noResponse
  | unboundLocalResponse
deriving Repr, DecidableEq

/-- The body of the `try` block of `invoke` in `run.py`: on a non-empty
prompt, dispatch on the provider selector, run the matching helper, raise
`NoResponseException` if the helper produced `None`, and return the
response; on an empty prompt, return the fixed advisory string without any
backend call. An unknown selector leaves `response` unassigned, so the
`None`-check raises `UnboundLocalError`. -/
def invokeBody (bk : Backend) (w : World)
    (prompt llm_provider model_name : String) (is_enterprise_mode : Bool) :
    Except InvokeError String × World × List BackendCall :=
  if prompt ≠ "" then
    if llm_provider = "google-generativeai" then
      let (s, w', calls) := google_generate bk w prompt model_name is_enterprise_mode
      (.ok s, w', calls)
    else if llm_provider = "azure-openai" then
      match azure_generate bk w prompt model_name is_enterprise_mode with
      | (some s, w', calls) => (.ok s, w', calls)
      | (none, w', calls) => (.error .noResponse, w', calls)
    else
      (.error .unboundLocalResponse, w, [])
  else
    (.ok "Your prompt is empty; please re-type your prompt and try again!", w, [])

/-- The generic user-facing string returned by the `except Exception` handler
of `invoke`. -/
def genericErrorMessage : String := "An error occurred while processing the request."

/-- `run.py`, `invoke`: run the body under the catch-all handler, which
converts every raised error into the single generic user-facing string, so
`invoke` always returns a string. -/
def invoke (bk : Backend) (w : World)
    (prompt llm_provider model_name : String) (is_enterprise_mode : Bool) :
    String × World × List BackendCall :=
  match invokeBody bk w prompt llm_provider model_name is_enterprise_mode with
  | (.ok s, w', calls) => (s, w', calls)
  | (.error _, w', calls) => (genericErrorMessage, w', calls)

/-- The failure raised by the UI dispatch step when the selected provider is
unknown: `LLMProviderNotFoundException`, carrying the list of valid
providers (its message is built from that list). This exception is not
caught anywhere, so the dispatch step either fails with it or returns the
result of `invoke`. -/
inductive UIError where
  | llmProviderNotFound (valid_providers : List String)
deriving Repr, DecidableEq

/-- `run.py`, the prompt-processing block at the bottom of the script: read
the provider selector from the session state, raise
`LLMProviderNotFoundException` if it is not one of the two known values,
otherwise pick the model name for the selected provider and call `invoke`. -/
def processPrompt (bk : Backend) (w : World)
    (session_llm_provider session_model_selected : String)
    (is_enterprise_mode : Bool) (prompt : String) :
    Except UIError (String × World × List BackendCall) :=
  if session_llm_provider ∉ (["google-generativeai", "azure-openai"] : List String) then
    .error (.llmProviderNotFound LLM_PROVIDERS)
  else
    let model_name :=
      if session_llm_provider = "google-generativeai" then session_model_selected
      else w.secrets.azure_provider_deployment
    .ok (invoke bk w prompt session_llm_provider model_name is_enterprise_mode)

/-! Stub values used by witnesses and counterexamples. -/

/-- A concrete stub secret set. -/
def svStub : SecretVariables :=
  { aether_api_key := "aether-key"
    aether_proxy_endpoint := "https://aether.example"
    azure_api_key := "azure-key"
    azure_endpoint := "https://azure.example"
    azure_openai_api_version := "2024-02-01"
    azure_provider_deployment := "gpt-4o"
    google_api_key := "google-key" }

/-- A concrete stub world with no genai configuration installed yet. -/
def wStub : World := { secrets := svStub, genaiConfig := none }

/-- A stub backend whose calls all succeed with the text "hello". -/
def bkHello : Backend :=
  { google := fun _ _ _ => .success ⟨"hello"⟩
    azure := fun _ _ _ => .success ⟨some "hello"⟩ }

/-- A stub backend whose Azure calls succeed at the transport level but carry
no message content. -/
def bkNoContent : Backend :=
  { google := fun _ _ _ => .success ⟨"hello"⟩
    azure := fun _ _ _ => .success ⟨none⟩ }

/-! Helper lemmas shared by the claim proofs. -/

/-- Closed form of `google_generate`: the result string, the updated world
and the call log, for either backend outcome. -/
theorem google_generate_eq (bk : Backend) (w : World)
    (prompt model_name : String) (mode : Bool) :
    google_generate bk w prompt model_name mode =
      ((match bk.google (googleCredentials w.secrets mode) model_name prompt with
        | .success resp => resp.text
        | .failure e => handle_gemini_exception e),
       { w with genaiConfig := some (googleCredentials w.secrets mode) },
       [.google (googleCredentials w.secrets mode) model_name prompt]) := by
  unfold google_generate
  cases h : bk.google (googleCredentials w.secrets mode) model_name prompt <;> simp [h]

/-- Closed form of `azure_generate`: the result, the unchanged world and the
call log, for either backend outcome. -/
theorem azure_generate_eq (bk : Backend) (w : World)
    (prompt model_name : String) (mode : Bool) :
    azure_generate bk w prompt model_name mode =
      ((match bk.azure (azureCredentials w.secrets mode) model_name prompt with
        | .success resp => resp.choice0_message_content
        | .failure e => some (handle_azure_exception e)),
       w,
       [.azure (azureCredentials w.secrets mode) model_name prompt]) := by
  unfold azure_generate
  cases h : bk.azure (azureCredentials w.secrets mode) model_name prompt <;> simp [h]

/-- On an empty prompt the body of `invoke` returns the advisory string,
touches nothing and calls nothing. -/
theorem invokeBody_empty (bk : Backend) (w : World) (p m : String) (mode : Bool) :
    invokeBody bk w "" p m mode =
      (.ok "Your prompt is empty; please re-type your prompt and try again!", w, []) := by
  simp [invokeBody]

/-- On a non-empty prompt and the Google selector, the body of `invoke` wraps
the helper result in `Except.ok`. -/
theorem invokeBody_google (bk : Backend) (w : World) (prompt m : String) (mode : Bool)
    (hp : prompt ≠ "") :
    invokeBody bk w prompt "google-generativeai" m mode =
      (.ok (google_generate bk w prompt m mode).1,
       (google_generate bk w prompt m mode).2.1,
       (google_generate bk w prompt m mode).2.2) := by
  rcases hg : google_generate bk w prompt m mode with ⟨s, w', calls⟩
  simp [invokeBody, hp, hg]

/-- On a non-empty prompt and the Azure selector, the body of `invoke` raises
`NoResponseException` when the helper returned `None` and otherwise wraps the
content in `Except.ok`. -/
theorem invokeBody_azure (bk : Backend) (w : World) (prompt m : String) (mode : Bool)
    (hp : prompt ≠ "") :
    invokeBody bk w prompt "azure-openai" m mode =
      ((match (azure_generate bk w prompt m mode).1 with
        | some s => Except.ok s
        | none => Except.error InvokeError.noResponse),
       (azure_generate bk w prompt m mode).2.1,
       (azure_generate bk w prompt m mode).2.2) := by
  rcases ha : azure_generate bk w prompt m mode with ⟨r, w', calls⟩
  cases r <;> simp [invokeBody, hp, ha]

/-- On a non-empty prompt and an unknown selector, neither branch assigns
`response`, so the body of `invoke` raises `UnboundLocalError`, with no
backend call and no state change. -/
theorem invokeBody_unknown (bk : Backend) (w : World) (prompt p m : String) (mode : Bool)
    (hp : prompt ≠ "") (h1 : p ≠ "google-generativeai") (h2 : p ≠ "azure-openai") :
    invokeBody bk w prompt p m mode = (.error .unboundLocalResponse, w, []) := by
  simp [invokeBody, hp, h1, h2]

/-- When the body succeeds, `invoke` passes the string through. -/
theorem invoke_of_body_ok (bk : Backend) (w : World) (prompt p m : String) (mode : Bool)
    (s : String) (w' : World) (calls : List BackendCall)
    (h : invokeBody bk w prompt p m mode = (.ok s, w', calls)) :
    invoke bk w prompt p m mode = (s, w', calls) := by
  unfold invoke
  rw [h]

/-- When the body raises, the catch-all handler of `invoke` returns the
generic user-facing string. -/
theorem invoke_of_body_error (bk : Backend) (w : World) (prompt p m : String) (mode : Bool)
    (e : InvokeError) (w' : World) (calls : List BackendCall)
    (h : invokeBody bk w prompt p m mode = (.error e, w', calls)) :
    invoke bk w prompt p m mode = (genericErrorMessage, w', calls) := by
  unfold invoke
  rw [h]

/-- On an empty prompt, `invoke` returns the advisory string with no state
change and no backend call. -/
theorem invoke_empty (bk : Backend) (w : World) (p m : String) (mode : Bool) :
    invoke bk w "" p m mode
      = ("Your prompt is empty; please re-type your prompt and try again!", w, []) :=
  invoke_of_body_ok bk w "" p m mode _ _ _ (invokeBody_empty bk w p m mode)

/-- On a non-empty prompt and an unknown selector, `invoke` returns the
generic error string with no state change and no backend call. -/
theorem invoke_unknown (bk : Backend) (w : World) (prompt p m : String) (mode : Bool)
    (hp : prompt ≠ "") (h1 : p ≠ "google-generativeai") (h2 : p ≠ "azure-openai") :
    invoke bk w prompt p m mode = (genericErrorMessage, w, []) :=
  invoke_of_body_error bk w prompt p m mode _ _ _
    (invokeBody_unknown bk w prompt p m mode hp h1 h2)

/-- Closed form of `invoke` on the Google branch. -/
theorem invoke_google_eq (bk : Backend) (w : World) (prompt model : String) (mode : Bool)
    (hp : prompt ≠ "") :
    invoke bk w prompt "google-generativeai" model mode =
      ((match bk.google (googleCredentials w.secrets mode) model prompt with
        | .success resp => resp.text
        | .failure e => handle_gemini_exception e),
       { w with genaiConfig := some (googleCredentials w.secrets mode) },
       [.google (googleCredentials w.secrets mode) model prompt]) := by
  have hb := invokeBody_google bk w prompt model mode hp
  rw [google_generate_eq] at hb
  exact invoke_of_body_ok bk w prompt "google-generativeai" model mode _ _ _ hb

/-- Closed form of `invoke` on the Azure branch. -/
theorem invoke_azure_eq (bk : Backend) (w : World) (prompt model : String) (mode : Bool)
    (hp : prompt ≠ "") :
    invoke bk w prompt "azure-openai" model mode =
      ((match bk.azure (azureCredentials w.secrets mode) model prompt with
        | .success resp =>
            (match resp.choice0_message_content with
             | some s => s
             | none => genericErrorMessage)
        | .failure e => handle_azure_exception e),
       w, [.azure (azureCredentials w.secrets mode) model prompt]) := by
  have hb := invokeBody_azure bk w prompt model mode hp
  cases hbk : bk.azure (azureCredentials w.secrets mode) model prompt with
  | success resp =>
    cases hc : resp.choice0_message_content with
    | some s =>
      simp [azure_generate_eq, hbk, hc] at hb
      rw [invoke_of_body_ok bk w prompt "azure-openai" model mode _ _ _ hb]
      simp [hbk, hc]
    | none =>
      simp [azure_generate_eq, hbk, hc] at hb
      rw [invoke_of_body_error bk w prompt "azure-openai" model mode _ _ _ hb]
      simp [hbk, hc]
  | failure e =>
    simp [azure_generate_eq, hbk] at hb
    rw [invoke_of_body_ok bk w prompt "azure-openai" model mode _ _ _ hb]
    try simp [hbk]

/-- The world and call-log components of `invoke` agree with those of its
body: the catch-all handler changes only the result string. -/
theorem invoke_components (bk : Backend) (w : World) (prompt p model : String) (mode : Bool) :
    (invoke bk w prompt p model mode).2 = (invokeBody bk w prompt p model mode).2 := by
  unfold invoke
  rcases hI : invokeBody bk w prompt p model mode with ⟨r, w', calls⟩
  cases r <;> rfl

/-- The body of `invoke` never changes the secret variables. -/
theorem invokeBody_preserves_secrets (bk : Backend) (w : World)
    (prompt p model : String) (mode : Bool) :
    ((invokeBody bk w prompt p model mode).2.1).secrets = w.secrets := by
  by_cases hp : prompt = ""
  · subst hp
    rw [invokeBody_empty]
  · by_cases hg : p = "google-generativeai"
    · subst hg
      rw [invokeBody_google bk w prompt model mode hp, google_generate_eq]
    · by_cases ha : p = "azure-openai"
      · subst ha
        rw [invokeBody_azure bk w prompt model mode hp, azure_generate_eq]
      · rw [invokeBody_unknown bk w prompt p model mode hp hg ha]

/-- `invoke` never changes the secret variables. -/
theorem invoke_preserves_secrets (bk : Backend) (w : World)
    (prompt p model : String) (mode : Bool) :
    ((invoke bk w prompt p model mode).2.1).secrets = w.secrets := by
  have h := congrArg Prod.fst (invoke_components bk w prompt p model mode)
  rw [h]
  exact invokeBody_preserves_secrets bk w prompt p model mode

/-! Claim theorems. -/

/-- C1: every failure arising inside `invoke` — the no-response and
unbound-provider errors raised in its body — is caught by its catch-all
handler and converted into the single generic user-facing string, and
backend errors are normalized to result strings inside the per-provider
helpers; hence `invoke` always returns a string and never propagates a typed
exception to the UI layer. -/
theorem C1_invoke_catches_all_failures (bk : Backend) (w : World)
    (prompt m : String) (mode : Bool) :
    (∀ (p : String) (e : InvokeError) (w' : World) (calls : List BackendCall),
        invokeBody bk w prompt p m mode = (.error e, w', calls) →
        (invoke bk w prompt p m mode).1 = genericErrorMessage)
    ∧ (∀ e : GoogleAPIError, prompt ≠ "" →
        bk.google (googleCredentials w.secrets mode) m prompt = .failure e →
        (invoke bk w prompt "google-generativeai" m mode).1 = handle_gemini_exception e)
    ∧ (∀ e : OpenAIAPIError, prompt ≠ "" →
        bk.azure (azureCredentials w.secrets mode) m prompt = .failure e →
        (invoke bk w prompt "azure-openai" m mode).1 = handle_azure_exception e) := by
  refine ⟨?_, ?_, ?_⟩
  · intro p e w' calls h
    rw [invoke_of_body_error bk w prompt p m mode e w' calls h]
  · intro e hp hbk
    have hb := invokeBody_google bk w prompt m mode hp
    simp only [google_generate_eq, hbk] at hb
    rw [invoke_of_body_ok bk w prompt "google-generativeai" m mode _ _ _ hb]
  · intro e hp hbk
    have hb := invokeBody_azure bk w prompt m mode hp
    simp only [azure_generate_eq, hbk] at hb
    rw [invoke_of_body_ok bk w prompt "azure-openai" m mode _ _ _ hb]

/-- C1 witness: a stub Azure backend returning no content raises
`NoResponseException` inside `invoke`, and `invoke` returns the generic
user-facing string. -/
theorem C1_witness :
    (invoke bkNoContent wStub "hi" "azure-openai" "m" false).1 = genericErrorMessage :=
  (C1_invoke_catches_all_failures bkNoContent wStub "hi" "m" false).1 "azure-openai"
    .noResponse wStub [.azure (azureCredentials svStub false) "m" "hi"] rfl

/-- C2 counterexample: `invoke` called with the unknown selector "cohere" and
a non-empty prompt does not fail with `LLMProviderNotFoundException`: its
body raises `UnboundLocalError` (there is no provider-not-found error kind
inside `invoke` at all) and the catch-all converts it to the generic string,
which differs from the provider-not-found message. -/
theorem C2_counterexample :
    invokeBody bkHello wStub "hi" "cohere" "m" false
      = (.error .unboundLocalResponse, wStub, [])
    ∧ invoke bkHello wStub "hi" "cohere" "m" false = (genericErrorMessage, wStub, [])
    ∧ genericErrorMessage ≠ llmProviderNotFoundMessage :=
  ⟨rfl, rfl, by decide⟩

/-- C2 (amended): for every request whose provider selector is not one of the
two known values, the UI dispatch step preceding `invoke` fails with
`LLMProviderNotFoundException` carrying the list of valid providers, before
any credential selection or lookup and before any backend call; `invoke`
itself, called with an unknown selector and a non-empty prompt, performs no
credential selection, makes no backend call, leaves the state unchanged and
returns the generic error string. -/
theorem C2_unknown_provider_rejected (bk : Backend) (w : World)
    (p model prompt : String) (mode : Bool)
    (h1 : p ≠ "google-generativeai") (h2 : p ≠ "azure-openai") :
    processPrompt bk w p model mode prompt
      = .error (.llmProviderNotFound LLM_PROVIDERS)
    ∧ (prompt ≠ "" → invoke bk w prompt p model mode = (genericErrorMessage, w, [])) := by
  constructor
  · simp [processPrompt, h1, h2]
  · intro hp
    exact invoke_of_body_error bk w prompt p model mode _ _ _
      (invokeBody_unknown bk w prompt p model mode hp h1 h2)

/-- C2 witness: the selector "cohere" is rejected by the dispatch step with
the provider-not-found failure carrying the valid-provider list, and a direct
`invoke` call with it returns the generic string with an empty call log. -/
theorem C2_witness :
    processPrompt bkHello wStub "cohere" "m" false "hi"
      = .error (.llmProviderNotFound LLM_PROVIDERS)
    ∧ invoke bkHello wStub "hi" "cohere" "m" false = (genericErrorMessage, wStub, []) := by
  have h := C2_unknown_provider_rejected bkHello wStub "cohere" "m" "hi" false
    (by decide) (by decide)
  exact ⟨h.1, h.2 (by decide)⟩

/-- C3 counterexample: on an empty prompt `invoke` returns the advisory
string hard-coded in `run.py`, which is not the literal
"prompt is empty, please retry" stated by the claim. -/
theorem C3_counterexample :
    invoke bkHello wStub "" "google-generativeai" "m" false
      = ("Your prompt is empty; please re-type your prompt and try again!", wStub, [])
    ∧ (invoke bkHello wStub "" "google-generativeai" "m" false).1
      ≠ "prompt is empty, please retry" :=
  ⟨rfl, by decide⟩

/-- C3 (amended): for every request with an empty prompt, `invoke` returns
the fixed advisory string "Your prompt is empty; please re-type your prompt
and try again!" as a success-shaped (`Except.ok`) result, leaves the state
unchanged and makes zero backend calls, regardless of the provider selector
and the mode flag. -/
theorem C3_empty_prompt_no_backend_call (bk : Backend) (w : World)
    (p m : String) (mode : Bool) :
    invoke bk w "" p m mode
      = ("Your prompt is empty; please re-type your prompt and try again!", w, [])
    ∧ invokeBody bk w "" p m mode
      = (.ok "Your prompt is empty; please re-type your prompt and try again!", w, []) := by
  have hb := invokeBody_empty bk w p m mode
  exact ⟨invoke_of_body_ok bk w "" p m mode _ _ _ hb, hb⟩

/-- C4: each per-provider normalizer extracts the provider-specific nested
message field — Gemini: `error.message` inside the JSON error body;
Azure/OpenAI-shaped: `message` inside the error body — and falls back to the
textual representation of the raw error whenever the expected field is absent; in
particular a Gemini error with body matching
the JSON value with key "error" holding key "message" holding
"quota exceeded" normalizes to "quota exceeded". -/
theorem C4_error_normalization :
    (∀ (e : GoogleAPIError) (o : GeminiErrorObj) (msg : String),
        e.responseBody.error = some o → o.message = some msg →
        handle_gemini_exception e = msg)
    ∧ (∀ (e : GoogleAPIError) (o : GeminiErrorObj),
        e.responseBody.error = some o → o.message = none →
        handle_gemini_exception e = e.reprStr)
    ∧ (∀ e : GoogleAPIError, e.responseBody.error = none →
        handle_gemini_exception e = e.reprStr)
    ∧ (∀ (e : OpenAIAPIError) (msg : String), e.body.message = some msg →
        handle_azure_exception e = msg)
    ∧ (∀ e : OpenAIAPIError, e.body.message = none →
        handle_azure_exception e = e.reprStr)
    ∧ handle_gemini_exception ⟨⟨some ⟨some "quota exceeded"⟩⟩, "GoogleAPIError()"⟩
        = "quota exceeded" := by
  refine ⟨?_, ?_, ?_, ?_, ?_, rfl⟩ <;> intros <;>
    simp [handle_gemini_exception, handle_azure_exception, *]

/-- C4 witness: a concrete Gemini error whose body carries the nested message
"quota exceeded" normalizes to "quota exceeded". -/
theorem C4_witness :
    handle_gemini_exception ⟨⟨some ⟨some "quota exceeded"⟩⟩, "r"⟩ = "quota exceeded" :=
  C4_error_normalization.1 ⟨⟨some ⟨some "quota exceeded"⟩⟩, "r"⟩
    ⟨some "quota exceeded"⟩ "quota exceeded" rfl rfl

/-- C5: when the Azure backend call succeeds at the transport level but the
first choice carries no message content, the body of `invoke` raises the
distinct `NoResponseException` (distinguishable internally), and the
user-facing string `invoke` returns is the generic failure message. -/
theorem C5_no_content_surfaces_no_response (bk : Backend) (w : World)
    (prompt model : String) (mode : Bool) (hp : prompt ≠ "")
    (hbk : bk.azure (azureCredentials w.secrets mode) model prompt = .success ⟨none⟩) :
    (invokeBody bk w prompt "azure-openai" model mode).1
      = .error InvokeError.noResponse
    ∧ (invoke bk w prompt "azure-openai" model mode).1 = genericErrorMessage := by
  have hb := invokeBody_azure bk w prompt model mode hp
  simp [azure_generate_eq, hbk] at hb
  exact ⟨by rw [hb],
    by rw [invoke_of_body_error bk w prompt "azure-openai" model mode _ _ _ hb]⟩

/-- C5 witness: a stub Azure backend returning a response with no message
content drives `invoke` through the no-response failure to the generic
user-facing string. -/
theorem C5_witness :
    (invokeBody bkNoContent wStub "hi" "azure-openai" "m" false).1
      = .error InvokeError.noResponse
    ∧ (invoke bkNoContent wStub "hi" "azure-openai" "m" false).1
      = genericErrorMessage :=
  C5_no_content_surfaces_no_response bkNoContent wStub "hi" "m" false
    (by decide) rfl

/-- C6: credential selection is a pure function of (provider, mode): in
enterprise (managed) mode both providers are configured with the Aether
proxy key and proxy endpoint; in direct mode each provider is configured
with its own direct key and direct endpoint (the Gemini direct configuration
carries no endpoint override, i.e. the SDK default direct endpoint); and
each helper sends its one backend request under exactly the credentials
selected for its (provider, mode) pair. -/
theorem C6_credential_selection (sv : SecretVariables) :
    googleCredentials sv true
      = { api_key := sv.aether_api_key
          api_endpoint := some sv.aether_proxy_endpoint
          transport := some "rest" }
    ∧ googleCredentials sv false
      = { api_key := sv.google_api_key, api_endpoint := none, transport := none }
    ∧ azureCredentials sv true
      = { api_key := sv.aether_api_key
          azure_endpoint := sv.aether_proxy_endpoint
          api_version := sv.azure_openai_api_version }
    ∧ azureCredentials sv false
      = { api_key := sv.azure_api_key
          azure_endpoint := sv.azure_endpoint
          api_version := sv.azure_openai_api_version }
    ∧ (∀ (bk : Backend) (w : World) (prompt model : String) (mode : Bool),
        (google_generate bk w prompt model mode).2.2
          = [.google (googleCredentials w.secrets mode) model prompt])
    ∧ (∀ (bk : Backend) (w : World) (prompt model : String) (mode : Bool),
        (azure_generate bk w prompt model mode).2.2
          = [.azure (azureCredentials w.secrets mode) model prompt]) := by
  refine ⟨rfl, rfl, rfl, rfl, ?_, ?_⟩ <;> intros <;>
    simp [google_generate_eq, azure_generate_eq]

/-- C7: for every non-empty prompt and a known provider whose backend call
succeeds with text, `invoke` returns exactly that text: the `.text` of the
Gemini response, or the first-choice message content of the Azure response. -/
theorem C7_success_returns_text (bk : Backend) (w : World)
    (prompt model : String) (mode : Bool) (hp : prompt ≠ "") :
    (∀ resp : GenerateContentResponse,
        bk.google (googleCredentials w.secrets mode) model prompt = .success resp →
        (invoke bk w prompt "google-generativeai" model mode).1 = resp.text)
    ∧ (∀ t : String,
        bk.azure (azureCredentials w.secrets mode) model prompt = .success ⟨some t⟩ →
        (invoke bk w prompt "azure-openai" model mode).1 = t) := by
  constructor
  · intro resp hbk
    have hb := invokeBody_google bk w prompt model mode hp
    simp [google_generate_eq, hbk] at hb
    rw [invoke_of_body_ok bk w prompt "google-generativeai" model mode _ _ _ hb]
  · intro t hbk
    have hb := invokeBody_azure bk w prompt model mode hp
    simp [azure_generate_eq, hbk] at hb
    rw [invoke_of_body_ok bk w prompt "azure-openai" model mode _ _ _ hb]

/-- C7 witness: with a stub Gemini backend returning the text "hello",
`invoke` returns "hello". -/
theorem C7_witness :
    (invoke bkHello wStub "hi" "google-generativeai" "gemini-pro" false).1 = "hello" :=
  (C7_success_returns_text bkHello wStub "hi" "gemini-pro" false (by decide)).1
    ⟨"hello"⟩ rfl

/-- C8: `invoke` is idempotent over the process state: running the same
request again, against the unchanged backend, from the state the first run
left behind, produces the identical result string, the identical call log
and the identical final state — the output is a deterministic function of
the request, the secret set and the backend, with no hidden mutable state
affecting it. -/
theorem C8_invoke_idempotent (bk : Backend) (w : World)
    (prompt p model : String) (mode : Bool) :
    invoke bk ((invoke bk w prompt p model mode).2.1) prompt p model mode
      = invoke bk w prompt p model mode := by
  by_cases hp : prompt = ""
  · subst hp
    simp [invoke_empty]
  · by_cases hg : p = "google-generativeai"
    · subst hg
      simp [invoke_google_eq, hp]
    · by_cases ha : p = "azure-openai"
      · subst ha
        simp [invoke_azure_eq, hp]
      · simp [invoke_unknown, hp, hg, ha]

/-- C9: the shared credential set is never mutated: every invocation of
`invoke` and of each per-provider helper leaves the secret-variable record
(hence every one of its fields) unchanged in the resulting state. -/
theorem C9_credential_set_immutable (bk : Backend) (w : World)
    (prompt p model : String) (mode : Bool) :
    ((invoke bk w prompt p model mode).2.1).secrets = w.secrets
    ∧ ((google_generate bk w prompt model mode).2.1).secrets = w.secrets
    ∧ ((azure_generate bk w prompt model mode).2.1).secrets = w.secrets := by
  refine ⟨invoke_preserves_secrets bk w prompt p model mode, ?_, ?_⟩
  · rw [google_generate_eq]
  · rw [azure_generate_eq]

/-- C10: the Google helper yields a string on both its success path and its
caught-error path, so the Google branch of `invoke` always produces an
`Except.ok` result and never `None`; consequently the `None`-check that
raises `NoResponseException` inside `invoke` can only fire on the Azure
branch. -/
theorem C10_google_never_none :
    (∀ (bk : Backend) (w : World) (prompt model : String) (mode : Bool),
        prompt ≠ "" →
        (invokeBody bk w prompt "google-generativeai" model mode).1
          = .ok (google_generate bk w prompt model mode).1)
    ∧ (∀ (bk : Backend) (w : World) (prompt p model : String) (mode : Bool),
        (invokeBody bk w prompt p model mode).1 = .error InvokeError.noResponse →
        p = "azure-openai") := by
  constructor
  · intro bk w prompt model mode hp
    rw [invokeBody_google bk w prompt model mode hp]
  · intro bk w prompt p model mode h
    by_contra hne
    by_cases hp : prompt = ""
    · subst hp
      rw [invokeBody_empty] at h
      simp at h
    · by_cases hg : p = "google-generativeai"
      · subst hg
        rw [invokeBody_google bk w prompt model mode hp] at h
        simp at h
      · rw [invokeBody_unknown bk w prompt p model mode hp hg hne] at h
        simp at h

/-- C10 witness: at a concrete stub backend and non-empty prompt the Google
branch of the body of `invoke` produces an `Except.ok` result. -/
theorem C10_witness :
    (invokeBody bkHello wStub "hi" "google-generativeai" "m" false).1
      = .ok (google_generate bkHello wStub "hi" "m" false).1 :=
  C10_google_never_none.1 bkHello wStub "hi" "m" false (by decide)

end AetherGateway
